import Mathlib

/-!
Shallow embedding of the WLink bridge (GoHighLevel <-> Evolution API relay).

The definitions below are translated from the TypeScript sources:
  * `src/evolution-api/evolution-api.transformer.ts` (two revisions are present
    in the repository; both are embedded),
  * `src/evolution-api/evolution-api.service.ts`,
  * `src/evolution-api/evolution-api.controller.ts`,
  * `src/webhooks/webhooks.controller.ts`,
  * `src/prisma/prisma.service.ts`.

Stateful code is modelled by explicit state passing over a registry value
(`Store`), remote HTTP calls are modelled as oracle parameters, and fallible
code returns explicit result types.  JavaScript truthiness on optional strings
and numbers is modelled explicitly (absent or empty string / zero is falsy).
-/

namespace WLink

/-! ### JavaScript string helpers -/

/-- JS `s.replace(/[^0-9]/g, '')`: keep only ASCII digits. -/
def digitsOf (s : String) : String := ⟨s.toList.filter Char.isDigit⟩

/-- JS `s.startsWith(p)`. -/
def jsStartsWith (s p : String) : Bool := p.toList.isPrefixOf s.toList

/-- JS truthiness of an optional string: `undefined`, `null` and `''` are falsy. -/
def strTruthy : Option String → Bool
  | none => false
  | some s => !(s == "")

/-- JS truthiness of an optional number: `undefined` and `0` are falsy. -/
def natTruthy : Option Nat → Bool
  | none => false
  | some n => !(n == 0)

/-- JS `s.toUpperCase()` (character-wise, as the code only compares ASCII). -/
def jsToUpper (s : String) : String := ⟨s.toList.map Char.toUpper⟩

/-- JS `s.trim()`: strip leading and trailing whitespace. -/
def jsTrim (s : String) : String :=
  ⟨((s.toList.dropWhile Char.isWhitespace).reverse.dropWhile Char.isWhitespace).reverse⟩

/-! ### Webhook payload data model (src/types.ts, fields optional as at runtime) -/

/-- `data.key` of an Evolution message-upsert payload. -/
structure MessageKey where
  remoteJid : Option String
  fromMe : Option Bool
  deriving DecidableEq, Repr

/-- `data.message` content variants.  `extendedTextMessage = some t` models the
presence of an `extendedTextMessage` object whose `text` field is `t`. -/
structure MessageContent where
  conversation : Option String
  extendedTextMessage : Option String
  deriving DecidableEq, Repr

/-- The loosely typed `data` object of an Evolution webhook. -/
structure MessageData where
  key : Option MessageKey
  pushName : Option String
  message : Option MessageContent
  state : Option String
  status : Option String
  messageTimestamp : Option Nat
  instanceId : Option String
  deriving DecidableEq, Repr

/-- An Evolution webhook body: `{ event, instance, data, timestamp }`.
The `instance` field is called `instanceName` because `instance` is a keyword. -/
structure EvolutionWebhook where
  event : String
  instanceName : Option String
  data : Option MessageData
  timestamp : Option Nat
  deriving DecidableEq, Repr

inductive Direction
  | inbound
  | outbound
  deriving DecidableEq, Repr

/-- Result of `toPlatformMessage`: direction, trimmed body and timestamp (ms). -/
structure PlatformMessage where
  direction : Direction
  message : String
  timestamp : Nat
  deriving DecidableEq, Repr

/-! ### Message Transformer (src/evolution-api/evolution-api.transformer.ts) -/

/-- Body extraction shared by both transformer revisions:
`conversation` if truthy, else the `extendedTextMessage` text if that object is
present, else the unsupported-type placeholder. -/
def extractMessageText (d : MessageData) : String :=
  match d.message with
  | none => "Unsupported message type"
  | some m =>
    match m.conversation with
    | some c =>
      if c ≠ "" then c
      else
        match m.extendedTextMessage with
        | some t => t
        | none => "Unsupported message type"
    | none =>
      match m.extendedTextMessage with
      | some t => t
      | none => "Unsupported message type"

/-- `(webhook.data?.status || '').toString().toUpperCase()`. -/
def statusUpper (d : MessageData) : String := jsToUpper (d.status.getD "")

/-- `toPlatformMessage` of `src/src/evolution-api/evolution-api.transformer.ts`:
direction is outbound when `data?.key?.fromMe === true` OR the uppercased
delivery status equals `SERVER_ACK`; timestamp is `webhook.timestamp * 1000`
when the field is truthy, else the receipt time `now`.  Accessing
`webhook.data.message` with `data` absent throws in JS, modelled by `none`. -/
def toPlatformMessage (now : Nat) (w : EvolutionWebhook) : Option PlatformMessage :=
  match w.data with
  | none => none
  | some d =>
    let rawFromMe : Option Bool := d.key.bind MessageKey.fromMe
    let isFromAgent : Bool := rawFromMe == some true || statusUpper d == "SERVER_ACK"
    some
      { direction := if isFromAgent then .outbound else .inbound
        message := jsTrim (extractMessageText d)
        timestamp :=
          match w.timestamp with
          | some n => if n == 0 then now else n * 1000
          | none => now }

/-- `toPlatformMessage` of the other transformer revision in the repository
(file `src/unnamed/part_008`, same path header): direction is decided by
`webhook.data?.key?.fromMe === true` alone, and the timestamp prefers
`data.messageTimestamp` over the top-level `timestamp` field. -/
def toPlatformMessageFlagOnly (now : Nat) (w : EvolutionWebhook) : Option PlatformMessage :=
  match w.data with
  | none => none
  | some d =>
    let isFromAgent : Bool := d.key.bind MessageKey.fromMe == some true
    let raw : Option Nat :=
      if natTruthy d.messageTimestamp then d.messageTimestamp
      else if natTruthy w.timestamp then w.timestamp
      else none
    some
      { direction := if isFromAgent then .outbound else .inbound
        message := jsTrim (extractMessageText d)
        timestamp :=
          match raw with
          | some n => n * 1000
          | none => now }

/-! ### Instance registry (src/prisma/prisma.service.ts and spec section 4.1)

The registry is modelled as a list of records; the projection tracked here is
the data the claims speak about: surrogate id, the gateway external id
(`idInstance` / `instanceName`), owner (`userId` / `locationId`), credential
and the connection `state` column (kept as the raw string the code stores). -/

structure InstRec where
  id : Nat
  instanceName : String
  instanceId : Option String
  apiTokenInstance : String
  locationId : String
  state : String
  deriving DecidableEq, Repr

/-- The registry backing store. -/
abbrev Store := List InstRec

/-- `prisma.getInstance(idInstance)`: get-by-external-id, absent gives `none`. -/
def getInstance (db : Store) (name : String) : Option InstRec :=
  db.find? (fun i => i.instanceName == name)

/-- `prisma.updateInstanceState(idInstance, state)`: write the state column of
the record with the given external id; an unknown key updates nothing (the
service branches on a null/throwing update, either way no row changes). -/
def updateInstanceState (db : Store) (name : String) (st : String) : Store :=
  db.map (fun i => if i.instanceName == name then { i with state := st } else i)

/-- `prisma.getInstanceById(id)` of the `prisma.service.ts` revision
concatenated in src/src/custom-page/custom-page.controller.ts: find the
record with the given surrogate id (`findUnique({ where: { id } })`, linear
scan in the in-memory fallback); absent gives `none`. -/
def getInstanceById (db : Store) (idv : Nat) : Option InstRec :=
  db.find? (fun i => i.id == idv)

/-- `prisma.removeInstanceById(id)` of the same `prisma.service.ts` revision:
delete the record with the given surrogate id (`delete({ where: { id } })`;
the in-memory fallback removes the record found by `getInstanceById`).  The
surrogate id is a unique key, so dropping every record carrying it removes
exactly that record. -/
def removeInstanceById (db : Store) (idv : Nat) : Store :=
  db.filter (fun i => !(i.id == idv))

/-- `prisma.getInstancesByUserId(userId)`: list-by-owner. -/
def getInstancesByUserId (db : Store) (loc : String) : List InstRec :=
  db.filter (fun i => i.locationId == loc)

/-! ### State Mapper and the connection-update branch
(`handleEvolutionWebhook` in src/evolution-api/evolution-api.service.ts,
identical switch in both service revisions) -/

/-- The `switch (state)` table of the connection-update branch. -/
def mapConnectionState (s : String) : Option String :=
  if s == "open" then some "authorized"
  else if s == "connecting" then some "starting"
  else if s == "close" then some "notAuthorized"
  else if s == "qrcode" then some "qr_code"
  else none

/-- State-column effect of the service-level `handleEvolutionWebhook`.
Faithful to the control flow of `evolution-api.service.ts`: a falsy instance
name is discarded; a `connection.update` with a present `data.state` maps it
through the switch and writes the result (unknown value: log and return, no
write); every other branch (the `messages.upsert` branch writes only the
`settings` column and posts to the CRM, the final branch only logs) performs
no state-column write, so it is the identity on this projection. -/
def handleEvolutionWebhookState (db : Store) (w : EvolutionWebhook) : Store :=
  if !(strTruthy w.instanceName) then db
  else
    let name := w.instanceName.getD ""
    if w.event == "connection.update" then
      match w.data.bind MessageData.state with
      | none => db
      | some s =>
        match mapConnectionState s with
        | none => db
        | some st => updateInstanceState db name st
    else db

/-- Controller-level webhook handler state effect
(`handleEvolutionWebhook` in src/webhooks/webhooks.controller.ts).
The controller acknowledges with 200 before processing and wraps processing in
a catch-all, so the embedding is a total function on the store: a payload with
no truthy `instance` is discarded; a `connection.update` without `data` or
without `data.state` is discarded before reaching the service; a
`messages.upsert` without a truthy `data.key.remoteJid` is discarded; other
events are only logged. -/
def controllerEvolutionWebhookState (db : Store) (w : EvolutionWebhook) : Store :=
  if !(strTruthy w.instanceName) then db
  else if w.event == "connection.update" then
    match w.data with
    | none => db
    | some d =>
      match d.state with
      | none => db
      | some _ => handleEvolutionWebhookState db w
  else if w.event == "messages.upsert" then
    if strTruthy ((w.data.bind MessageData.key).bind MessageKey.remoteJid) then
      handleEvolutionWebhookState db w
    else db
  else db

/-! ### Phone normalisation (src/evolution-api/evolution-api.service.ts) -/

/-- `normalizePhoneE164`: empty stays empty, a `+`-prefixed phone is kept,
otherwise `+` is prepended to the stripped digits. -/
def normalizePhoneE164 (phone : String) : String :=
  if phone == "" then ""
  else if jsStartsWith phone "+" then phone
  else "+" ++ digitsOf phone

/-- The first lookup format of `getGhlContactByPhone`:
`phone?.startsWith('+') ? phone : '+' + (phone || '').replace(/[^0-9]/g, '')`. -/
def ghlFormattedPhone (phone : String) : String :=
  if jsStartsWith phone "+" then phone else "+" ++ digitsOf phone

/-! ### Contact Resolver (findOrCreateGhlContact and the messages.upsert path,
service revision src/unnamed/part_003) -/

/-- A CRM contact record. -/
structure Contact where
  id : String
  name : String
  phone : String
  tags : List String
  deriving DecidableEq, Repr

/-- The upsert request body built by `findOrCreateGhlContact` and
`findOrCreateGhlContactForInstance`; `name = none` means the field is absent
from the request. -/
structure UpsertPayload where
  locationId : String
  phone : String
  tags : List String
  source : String
  name : Option String
  avatarUrl : Option String
  deriving DecidableEq, Repr

/-- Request construction of `findOrCreateGhlContact` (identical in
`findOrCreateGhlContactForInstance`): the `name` field is attached only when
`!preserveExistingName && name` holds; the avatar enrichment is best-effort
and passed in as the optional fetch result. -/
def buildContactUpsertPayload (locationId phone name instanceName : String)
    (preserveExistingName : Bool) (avatarUrl : Option String) : UpsertPayload :=
  { locationId := locationId
    phone := if jsStartsWith phone "+" then phone else "+" ++ phone
    tags := ["whatsapp-instance-" ++ instanceName]
    source := "EvolutionAPI Integration"
    name := if !preserveExistingName && !(name == "") then some name else none
    avatarUrl := avatarUrl }

/-- Modelled from the spec (sections 4.3 and 6, collaborator contract): the
CRM applies an upsert to an already-existing contact field-wise, leaving any
field absent from the request unchanged. -/
def applyUpsertToExisting (c : Contact) (p : UpsertPayload) : Contact :=
  { c with name := p.name.getD c.name }

/-- JS `s.slice(-4)`: the last four characters (the whole string if shorter). -/
def lastFour (s : String) : String :=
  ⟨s.toList.drop (s.toList.length - 4)⟩

/-- One contact-resolution upsert call of the messages.upsert branch of the
service revision src/unnamed/part_003. -/
structure ContactResolutionCall where
  name : String
  preserveExistingName : Bool
  deriving DecidableEq, Repr

/-- The contact-resolution upsert call made by the messages.upsert branch,
as a function of the message `fromMe` flag, whether the phone lookup found an
existing contact, the push name and the remote phone: an agent-originated
message (`fromMe === true`) only looks the contact up and, when absent,
creates it with `preserveExistingName = true` and a generic name; any other
message upserts with `preserveExistingName = false` and
`pushName || generic`. -/
def messageUpsertContactCall (fromMe : Option Bool) (lookupFound : Bool)
    (pushName : Option String) (contactPhone : String) : Option ContactResolutionCall :=
  let genericName := "WhatsApp User " ++ lastFour contactPhone
  if fromMe == some true then
    if lookupFound then none
    else some { name := genericName, preserveExistingName := true }
  else
    some
      { name := if strTruthy pushName then pushName.getD "" else genericName
        preserveExistingName := false }

/-! ### CRM phone lookup (getGhlContactByPhone, service revision
src/unnamed/part_003) -/

/-- Outcome of one `GET /contacts/lookup` call: a contact found, a 2xx
response whose `contacts` array is empty, or an HTTP error with a status. -/
inductive LookupOutcome
  | found (c : Contact)
  | okEmpty
  | httpError (status : Option Nat)
  deriving DecidableEq, Repr

/-- Result of `getGhlContactByPhone`: the returned value (`none` = null) or a
rethrown error, together with the list of phone formats actually queried. -/
inductive LookupRes
  | ok (c : Option Contact)
  | thrown
  deriving DecidableEq, Repr

/-- `getGhlContactByPhone` of the service revision src/unnamed/part_003: query
the `+`-prefixed format first; on HTTP 404 or 400 fall back to the stripped
digits (when non-empty), any failure of the fallback ends in null; any other
error of the first call is rethrown.  Returns the result and the query trace. -/
def getGhlContactByPhone (lookup : String → LookupOutcome) (phone : String) :
    LookupRes × List String :=
  let formatted := ghlFormattedPhone phone
  match lookup formatted with
  | .found c => (.ok (some c), [formatted])
  | .okEmpty => (.ok none, [formatted])
  | .httpError st =>
    if st == some 404 || st == some 400 then
      let digits := digitsOf phone
      if digits == "" then (.ok none, [formatted])
      else
        match lookup digits with
        | .found c => (.ok (some c), [formatted, digits])
        | .okEmpty => (.ok none, [formatted, digits])
        | .httpError _ => (.ok none, [formatted, digits])
    else (.thrown, [formatted])

/-! ### Outbound send with format retry (sendWhatsAppMessageWithRetry,
identical in both service revisions) -/

/-- Result of the retried send: success or the final `IntegrationError`. -/
inductive SendResult
  | sent
  | integrationError
  deriving DecidableEq, Repr

/-- `sendWhatsAppMessageWithRetry`: first attempt with the stripped digits;
on failure one retry with the `normalizePhoneE164` format; a second failure
throws `IntegrationError`.  The send oracle maps the phone format passed to
`evolutionService.sendMessage` to success or failure; the attempt trace is
returned alongside. -/
def sendWhatsAppMessageWithRetry (send : String → Bool) (toPhone : String) :
    SendResult × List String :=
  let digits := digitsOf toPhone
  if send digits then (.sent, [digits])
  else
    let e164 := normalizePhoneE164 toPhone
    if send e164 then (.sent, [digits, e164])
    else (.integrationError, [digits, e164])

/-! ### Outbound Relay (handlePlatformWebhook, identical guard logic in both
service revisions) -/

/-- Errors thrown by `handlePlatformWebhook` (src/core/base-adapter classes). -/
inductive AdapterError
  | notFound (msg : String)
  | integrationError (msg : String)
  deriving DecidableEq, Repr

/-- Result of `handlePlatformWebhook` together with the gateway send trace. -/
inductive RelayResult
  | ok
  | err (e : AdapterError)
  deriving DecidableEq, Repr

/-- `handlePlatformWebhook`: resolve the instance by external id (`NotFoundError`
when absent), refuse with `IntegrationError` when its state is not
`authorized`, else send with the format retry; the follow-up
`updateGhlMessageStatus` call is best-effort and does not touch the registry
or the gateway send trace. -/
def handlePlatformWebhook (db : Store) (send : String → Bool)
    (instanceName phone : String) : RelayResult × List String :=
  match getInstance db instanceName with
  | none => (.err (.notFound ("Instance " ++ instanceName ++ " not found")), [])
  | some inst =>
    if !(inst.state == "authorized") then
      (.err (.integrationError ("Instance " ++ instanceName ++ " is not authorized")), [])
    else
      match sendWhatsAppMessageWithRetry send phone with
      | (.sent, tr) => (.ok, tr)
      | (.integrationError, tr) =>
        (.err (.integrationError "Failed to send message via Evolution API"), tr)

/-! ### Instance deletion (deleteInstance,
src/evolution-api/evolution-api.controller.ts) -/

/-- Result of the delete endpoint. -/
inductive DeleteResult
  | unauthorized
  | success
  deriving DecidableEq, Repr

/-- `deleteInstance`: resolve by surrogate id and check ownership
(`UnauthorizedException` otherwise); the gateway-side delete is attempted
inside a try whose catch only logs, so its outcome (`gatewayDeleteOk`) never
changes the control flow; `removeInstanceById` then always runs and the
endpoint reports success. -/
def deleteInstance (db : Store) (_gatewayDeleteOk : Bool) (idv : Nat)
    (locationId : String) : DeleteResult × Store :=
  match getInstanceById db idv with
  | none => (.unauthorized, db)
  | some inst =>
    if !(inst.locationId == locationId) then (.unauthorized, db)
    else (.success, removeInstanceById db idv)

/-! ### Reconciliation on listing (getInstances,
src/evolution-api/evolution-api.controller.ts) -/

/-- Outcome of one `evolutionService.getInstanceStatus` call:
an exception, or a response whose `state ?? status` field is the given
optional string (`none` models an absent field). -/
inductive StatusOutcome
  | err
  | ok (s : Option String)
  deriving DecidableEq, Repr

/-- The in-memory instance returned for one row of `getInstances`: a failing
status call is caught per instance and leaves the row as stored; a truthy
fresh state differing from the stored one replaces it. -/
def refreshedInstance (statusOf : String → StatusOutcome) (inst : InstRec) : InstRec :=
  match statusOf inst.instanceName with
  | .err => inst
  | .ok none => inst
  | .ok (some s) =>
    if !(s == "") && !(s == inst.state) then { inst with state := s } else inst

/-- The `prisma.updateInstanceState` call (if any) issued for one row of
`getInstances`: exactly when the status call succeeds with a truthy state that
differs from the stored one. -/
def refreshWrite (statusOf : String → StatusOutcome) (inst : InstRec) :
    Option (String × String) :=
  match statusOf inst.instanceName with
  | .err => none
  | .ok none => none
  | .ok (some s) =>
    if !(s == "") && !(s == inst.state) then some (inst.instanceName, s) else none

/-- `getInstances`: list the caller's instances, refresh each one
independently (per-row try/catch) and return every row; the second component
is the list of state-correction writes issued through the registry. -/
def getInstancesRefresh (db : Store) (statusOf : String → StatusOutcome)
    (loc : String) : List InstRec × List (String × String) :=
  let owned := getInstancesByUserId db loc
  (owned.map (refreshedInstance statusOf), owned.filterMap (refreshWrite statusOf))

/-! ### Tag round trip (extractInstanceIdFromTags,
src/webhooks/webhooks.controller.ts) -/

/-- JS `String.replace` with a string pattern: replace only the first
occurrence of `pat` (list-of-characters version). -/
def listReplaceFirst (pat repl : List Char) : List Char → List Char
  | [] => if pat.isPrefixOf ([] : List Char) then repl else []
  | c :: rest =>
    if pat.isPrefixOf (c :: rest) then repl ++ (c :: rest).drop pat.length
    else c :: listReplaceFirst pat repl rest

/-- JS `s.replace(pat, repl)` for a string pattern (first occurrence only). -/
def jsReplaceFirst (s pat repl : String) : String :=
  ⟨listReplaceFirst pat.toList repl.toList s.toList⟩

/-- `extractInstanceIdFromTags`: empty or missing list gives null; otherwise
the first tag starting with `whatsapp-instance-` has that prefix removed
(first-occurrence replace), and null is returned when no tag matches. -/
def extractInstanceIdFromTags (tags : List String) : Option String :=
  if tags.length == 0 then none
  else
    match tags.find? (fun t => jsStartsWith t "whatsapp-instance-") with
    | some t => some (jsReplaceFirst t "whatsapp-instance-" "")
    | none => none

/-! ### Concrete fixtures used by counterexamples and witnesses -/

/-- A message-upsert payload whose key says `fromMe: false` but whose delivery
status is `SERVER_ACK`. -/
def c1Data : MessageData :=
  { key := some { remoteJid := some "15551234567@s.whatsapp.net", fromMe := some false }
    pushName := none
    message := some { conversation := some "hola", extendedTextMessage := none }
    state := none
    status := some "SERVER_ACK"
    messageTimestamp := none
    instanceId := none }

/-- The webhook carrying `c1Data`. -/
def c1Webhook : EvolutionWebhook :=
  { event := "messages.upsert", instanceName := some "abc123",
    data := some c1Data, timestamp := none }

/-- A stored instance in state `starting`. -/
def c2Inst : InstRec :=
  { id := 1, instanceName := "abc123", instanceId := none,
    apiTokenInstance := "tok", locationId := "loc1", state := "starting" }

/-- A `connection.update` webhook with `data.state = open`. -/
def c2Webhook : EvolutionWebhook :=
  { event := "connection.update", instanceName := some "abc123",
    data := some { key := none, pushName := none, message := none,
                   state := some "open", status := none,
                   messageTimestamp := none, instanceId := none },
    timestamp := none }

/-- A lookup oracle that always answers 200 with an empty contact list. -/
def c4AllEmpty : String → LookupOutcome := fun _ => .okEmpty

/-- A lookup oracle failing the `+` form with 404 and answering the digit form
with an empty 200. -/
def c4Oracle : String → LookupOutcome := fun p =>
  if p == "+123" then .httpError (some 404) else .okEmpty

/-- A stored instance that is not authorized. -/
def c6Inst : InstRec :=
  { id := 2, instanceName := "abc", instanceId := none,
    apiTokenInstance := "tok", locationId := "loc1", state := "starting" }

/-- A stored instance used by the delete witness. -/
def c7Inst : InstRec :=
  { id := 5, instanceName := "inst5", instanceId := none,
    apiTokenInstance := "tok", locationId := "loc9", state := "authorized" }

/-- A `connection.update` webhook with no `data` object at all. -/
def c8Webhook : EvolutionWebhook :=
  { event := "connection.update", instanceName := some "abc123",
    data := none, timestamp := none }

/-- First instance of the listing scenario: its status lookup fails. -/
def c9InstA : InstRec :=
  { id := 1, instanceName := "a1", instanceId := none,
    apiTokenInstance := "tokA", locationId := "loc1", state := "authorized" }

/-- Second instance of the listing scenario: the gateway reports `open`. -/
def c9InstB : InstRec :=
  { id := 2, instanceName := "b2", instanceId := none,
    apiTokenInstance := "tokB", locationId := "loc1", state := "notAuthorized" }

/-- Status oracle of the listing scenario: `a1` errors, everything else is
reported as `open`. -/
def c9Status : String → StatusOutcome := fun n =>
  if n == "a1" then .err else .ok (some "open")

/-! ### Helper lemmas -/

/-- Reading an instance back after `updateInstanceState` on the same key. -/
theorem getInstance_updateInstanceState (db : Store) (name st : String) :
    getInstance (updateInstanceState db name st) name
      = (getInstance db name).map (fun i => { i with state := st }) := by
  induction db with
  | nil => rfl
  | cons i rest ih =>
    by_cases hi : i.instanceName = name
    · simp [getInstance, updateInstanceState, hi]
    · simp only [getInstance, updateInstanceState, List.map_cons] at *
      rw [if_neg (by simp [hi])]
      rw [List.find?_cons_of_neg _ (by simp [hi]), List.find?_cons_of_neg _ (by simp [hi])]
      exact ih

/-- First-occurrence replacement strips an exact leading pattern. -/
theorem listReplaceFirst_append (pat repl s : List Char) :
    listReplaceFirst pat repl (pat ++ s) = repl ++ s := by
  cases hp : pat with
  | nil =>
    cases s with
    | nil => simp [listReplaceFirst]
    | cons c rest => simp [listReplaceFirst]
  | cons p ps =>
    show listReplaceFirst (p :: ps) repl ((p :: ps) ++ s) = repl ++ s
    rw [List.cons_append, listReplaceFirst]
    rw [if_pos (by rw [← List.cons_append]; exact List.isPrefixOf_iff_prefix.mpr (List.prefix_append _ _))]
    rw [← List.cons_append, List.drop_left]

/-- Removing the tag marker from a tag built by the contact resolver. -/
theorem jsReplaceFirst_tag (s : String) :
    jsReplaceFirst ("whatsapp-instance-" ++ s) "whatsapp-instance-" "" = s := by
  have h : ("whatsapp-instance-" ++ s).toList
      = "whatsapp-instance-".toList ++ s.toList := String.data_append _ _
  rw [jsReplaceFirst, h]
  have h2 := listReplaceFirst_append "whatsapp-instance-".toList "".toList s.toList
  rw [h2]
  rfl

/-! ### Claim theorems -/

/-- Claim C1, counterexample: in the transformer at
src/src/evolution-api/evolution-api.transformer.ts, a payload whose
`data.key.fromMe` is `false` but whose `data.status` is `SERVER_ACK` is still
given direction `outbound`, so the delivery-status field does influence the
computed direction. -/
theorem C1_fromMe_only_counterexample :
    (toPlatformMessage 0 c1Webhook).map PlatformMessage.direction = some Direction.outbound
    ∧ (c1Webhook.data.bind MessageData.key).bind MessageKey.fromMe = some false := by
  exact ⟨by decide, by decide⟩

/-- Claim C1, amended: in the transformer at the canonical path, direction is
`outbound` iff `data.key.fromMe === true` or the uppercased `data.status`
equals `SERVER_ACK`; in the other transformer revision in the repository
(src/unnamed/part_008) direction is `outbound` iff `data.key.fromMe === true`
alone. -/
theorem C1_direction_amended (now : Nat) (w : EvolutionWebhook) (d : MessageData)
    (h : w.data = some d) :
    ((toPlatformMessage now w).map PlatformMessage.direction = some Direction.outbound ↔
      (d.key.bind MessageKey.fromMe = some true ∨ statusUpper d = "SERVER_ACK"))
    ∧ ((toPlatformMessageFlagOnly now w).map PlatformMessage.direction = some Direction.outbound ↔
      d.key.bind MessageKey.fromMe = some true) := by
  constructor
  · simp only [toPlatformMessage, h, Option.map_some']
    by_cases h1 : d.key.bind MessageKey.fromMe = some true <;>
      by_cases h2 : statusUpper d = "SERVER_ACK" <;>
        simp [h1, h2]
  · simp only [toPlatformMessageFlagOnly, h, Option.map_some']
    by_cases h1 : d.key.bind MessageKey.fromMe = some true <;> simp [h1]

/-- Witness for the amended claim C1 at the concrete counterexample payload. -/
theorem C1_direction_amended_witness :
    (toPlatformMessage 0 c1Webhook).map PlatformMessage.direction
      = some Direction.outbound :=
  ((C1_direction_amended 0 c1Webhook c1Data rfl).1).mpr (Or.inr (by decide))

/-- Claim C2: for a connection-update webhook carrying a `data.state`, the
handler maps `open`, `connecting`, `close`, `qrcode` to `authorized`,
`starting`, `notAuthorized`, `qr_code` respectively and writes exactly the
mapped state for the webhook instance; any other `data.state` value maps to
nothing and leaves the store untouched. -/
theorem C2_connection_state_mapping (db : Store) (w : EvolutionWebhook)
    (name s : String) (hn : w.instanceName = some name) (hne : name ≠ "")
    (he : w.event = "connection.update")
    (hs : w.data.bind MessageData.state = some s) :
    (mapConnectionState "open" = some "authorized"
      ∧ mapConnectionState "connecting" = some "starting"
      ∧ mapConnectionState "close" = some "notAuthorized"
      ∧ mapConnectionState "qrcode" = some "qr_code")
    ∧ (∀ st, mapConnectionState s = some st →
        handleEvolutionWebhookState db w = updateInstanceState db name st
        ∧ getInstance (handleEvolutionWebhookState db w) name
            = (getInstance db name).map (fun i => { i with state := st }))
    ∧ (mapConnectionState s = none → handleEvolutionWebhookState db w = db)
    ∧ (s ≠ "open" → s ≠ "connecting" → s ≠ "close" → s ≠ "qrcode" →
        mapConnectionState s = none) := by
  have hred : handleEvolutionWebhookState db w =
      (match mapConnectionState s with
        | none => db
        | some st => updateInstanceState db name st) := by
    simp only [handleEvolutionWebhookState, hn, he, hs, strTruthy, Option.getD_some]
    simp [hne]
  refine ⟨⟨rfl, rfl, rfl, rfl⟩, ?_, ?_, ?_⟩
  · intro st hst
    rw [hred, hst]
    exact ⟨rfl, getInstance_updateInstanceState db name st⟩
  · intro hnone
    rw [hred, hnone]
  · intro h1 h2 h3 h4
    simp [mapConnectionState, h1, h2, h3, h4]

/-- Witness for claim C2: the scenario webhook `connection.update`/`open` on a
stored instance in state `starting` writes exactly `authorized`. -/
theorem C2_connection_state_mapping_witness :
    handleEvolutionWebhookState [c2Inst] c2Webhook
      = updateInstanceState [c2Inst] "abc123" "authorized" :=
  ((C2_connection_state_mapping [c2Inst] c2Webhook "abc123" "open" rfl
    (by decide) rfl rfl).2.1 "authorized" rfl).1

/-- Claim C3: with `preserveExistingName = true` the upsert request carries no
`name` field, hence an existing contact keeps its stored name whatever display
name was passed in; and in the messages.upsert path every contact-resolution
upsert call carries `preserveExistingName = true` exactly when the message's
`fromMe` flag is `true`. -/
theorem C3_preserve_existing_name (loc phone nameCand instName : String)
    (avatar : Option String) (c : Contact) (fromMe : Option Bool)
    (lookupFound : Bool) (push : Option String) (call : ContactResolutionCall)
    (hcall : messageUpsertContactCall fromMe lookupFound push phone = some call) :
    (buildContactUpsertPayload loc phone nameCand instName true avatar).name = none
    ∧ (applyUpsertToExisting c
        (buildContactUpsertPayload loc phone nameCand instName true avatar)).name = c.name
    ∧ (call.preserveExistingName = true ↔ fromMe = some true) := by
  refine ⟨rfl, rfl, ?_⟩
  by_cases hf : fromMe = some true
  · simp only [messageUpsertContactCall, hf, beq_self_eq_true, if_true] at hcall
    cases lookupFound with
    | true => simp at hcall
    | false =>
      simp only [Bool.false_eq_true, if_false] at hcall
      cases hcall
      simp [hf]
  · have hb : (fromMe == some true) = false := by
      cases hx : fromMe == some true
      · rfl
      · exact absurd (by exact beq_iff_eq.mp hx) hf
    simp only [messageUpsertContactCall, hb, Bool.false_eq_true, if_false] at hcall
    cases hcall
    simpa using hf

/-- Witness for claim C3 at a concrete agent-originated resolution call. -/
theorem C3_preserve_existing_name_witness :
    (buildContactUpsertPayload "loc1" "15551234567" "Jane" "abc123" true none).name = none
    ∧ ({ preserveExistingName := true,
         name := "WhatsApp User 4567" : ContactResolutionCall }.preserveExistingName = true
        ↔ (some true : Option Bool) = some true) :=
  ⟨(C3_preserve_existing_name "loc1" "15551234567" "Jane" "abc123" none
      { id := "c1", name := "Jane Doe", phone := "+15551234567", tags := [] }
      (some true) false none
      { name := "WhatsApp User 4567", preserveExistingName := true }
      (by decide)).1,
   (C3_preserve_existing_name "loc1" "15551234567" "Jane" "abc123" none
      { id := "c1", name := "Jane Doe", phone := "+15551234567", tags := [] }
      (some true) false none
      { name := "WhatsApp User 4567", preserveExistingName := true }
      (by decide)).2.2⟩

/-- Claim C4, counterexample: when the first (`+`-prefixed) lookup succeeds
with an empty contact list, `getGhlContactByPhone` returns null having queried
only that one form — the digits-only form `123` was never tried. -/
theorem C4_both_forms_counterexample :
    (getGhlContactByPhone c4AllEmpty "123").1 = .ok none
    ∧ (getGhlContactByPhone c4AllEmpty "123").2 = ["+123"]
    ∧ digitsOf "123" ∉ (getGhlContactByPhone c4AllEmpty "123").2 := by
  exact ⟨by decide, by decide, by decide⟩

/-- Claim C4, amended: the digits-only fallback is tried exactly when the
`+`-prefixed lookup fails with HTTP 404 or 400 and the phone has a non-empty
digit form; in that case both formats are queried and null is returned iff the
fallback finds no contact.  A first response that succeeds with an empty
contact list (and likewise a digitless phone) concludes absence from the `+`
form alone, and other HTTP errors of the first call are rethrown. -/
theorem C4_lookup_fallback_amended (lookup : String → LookupOutcome)
    (phone : String) (st : Option Nat)
    (herr : lookup (ghlFormattedPhone phone) = .httpError st)
    (hst : st = some 404 ∨ st = some 400) (hd : digitsOf phone ≠ "") :
    (getGhlContactByPhone lookup phone).2 = [ghlFormattedPhone phone, digitsOf phone]
    ∧ ((getGhlContactByPhone lookup phone).1 = .ok none ↔
        ∀ c, lookup (digitsOf phone) ≠ .found c) := by
  have hb : (st == some 404 || st == some 400) = true := by
    rcases hst with h | h <;> simp [h]
  rw [getGhlContactByPhone, herr]
  simp only [hb, if_true, Bool.or_eq_true]
  rw [if_neg (by simp [hd])]
  cases hl : lookup (digitsOf phone) with
  | found c =>
    refine ⟨rfl, ?_⟩
    simp only [LookupRes.ok.injEq]
    constructor
    · intro h; cases h
    · intro h; exact absurd rfl (h c)
  | okEmpty => exact ⟨rfl, by simp [hl]⟩
  | httpError s2 => exact ⟨rfl, by simp [hl]⟩

/-- Witness for the amended claim C4: `+123` fails with 404, the digit form is
then queried and answers an empty list, so both formats appear in the trace
and the result is null. -/
theorem C4_lookup_fallback_amended_witness :
    (getGhlContactByPhone c4Oracle "123").2 = ["+123", "123"]
    ∧ (getGhlContactByPhone c4Oracle "123").1 = .ok none := by
  have h := C4_lookup_fallback_amended c4Oracle "123" (some 404)
    (by decide) (Or.inl rfl) (by decide)
  refine ⟨h.1, h.2.mpr ?_⟩
  intro c hc
  rw [show c4Oracle (digitsOf "123") = LookupOutcome.okEmpty from by decide] at hc
  cases hc

/-- Claim C5: the outbound send first tries the digits-only format, retries
exactly once with the `normalizePhoneE164` (`+`-prefixed) format after a
failure, throws `IntegrationError` when both attempts fail, and never invokes
the gateway send more than twice. -/
theorem C5_send_format_retry (send : String → Bool) (toPhone : String) :
    (sendWhatsAppMessageWithRetry send toPhone).2 =
      (if send (digitsOf toPhone) then [digitsOf toPhone]
        else [digitsOf toPhone, normalizePhoneE164 toPhone])
    ∧ (sendWhatsAppMessageWithRetry send toPhone).2.length ≤ 2
    ∧ ((sendWhatsAppMessageWithRetry send toPhone).1 = .integrationError ↔
        (send (digitsOf toPhone) = false ∧ send (normalizePhoneE164 toPhone) = false)) := by
  by_cases h1 : send (digitsOf toPhone) <;>
    by_cases h2 : send (normalizePhoneE164 toPhone) <;>
      simp [sendWhatsAppMessageWithRetry, h1, h2]

/-- Claim C6: the outbound relay throws `NotFoundError` when no instance
record resolves and `IntegrationError` when the resolved instance is not
`authorized`, and in both failure cases the gateway send trace is empty. -/
theorem C6_outbound_guards (db : Store) (send : String → Bool)
    (name phone : String) :
    (getInstance db name = none →
      handlePlatformWebhook db send name phone =
        (.err (.notFound ("Instance " ++ name ++ " not found")), []))
    ∧ (∀ inst, getInstance db name = some inst → inst.state ≠ "authorized" →
      handlePlatformWebhook db send name phone =
        (.err (.integrationError ("Instance " ++ name ++ " is not authorized")), [])) := by
  constructor
  · intro h
    simp [handlePlatformWebhook, h]
  · intro inst h hst
    simp [handlePlatformWebhook, h, hst]

/-- Witness for claim C6: an unknown instance name and a stored instance in
state `starting` both fail without any gateway send attempt. -/
theorem C6_outbound_guards_witness :
    handlePlatformWebhook [] (fun _ => true) "abc" "15551234567"
      = (.err (.notFound "Instance abc not found"), [])
    ∧ handlePlatformWebhook [c6Inst] (fun _ => true) "abc" "15551234567"
      = (.err (.integrationError "Instance abc is not authorized"), []) :=
  ⟨(C6_outbound_guards [] (fun _ => true) "abc" "15551234567").1 rfl,
   (C6_outbound_guards [c6Inst] (fun _ => true) "abc" "15551234567").2 c6Inst
     (by decide) (by decide)⟩

/-- Claim C7: an authorized delete on an owned instance reports success and
removes the local record whatever the outcome of the gateway-side delete
(its failure is caught and only logged); afterwards the record is gone. -/
theorem C7_delete_always_local (db : Store) (gOk : Bool) (idv : Nat)
    (loc : String) (inst : InstRec) (h1 : getInstanceById db idv = some inst)
    (h2 : inst.locationId = loc) :
    deleteInstance db gOk idv loc = (.success, removeInstanceById db idv)
    ∧ getInstanceById (removeInstanceById db idv) idv = none := by
  constructor
  · simp [deleteInstance, h1, h2]
  · apply List.find?_eq_none.mpr
    intro x hx
    have hkeep := (List.mem_filter.mp hx).2
    simp only [Bool.not_eq_eq_eq_not, Bool.not_true, beq_eq_false_iff_ne] at hkeep
    simp [hkeep]

/-- Witness for claim C7 at a concrete owned instance, with the gateway
delete failing. -/
theorem C7_delete_always_local_witness :
    deleteInstance [c7Inst] false 5 "loc9" = (.success, removeInstanceById [c7Inst] 5)
    ∧ getInstanceById (removeInstanceById [c7Inst] 5) 5 = none :=
  C7_delete_always_local [c7Inst] false 5 "loc9" c7Inst rfl rfl

/-- Claim C8: a `connection.update` webhook without `data` or without
`data.state` changes no instance state, at the controller level and at the
service level (both embeddings are total functions, matching the catch-all
around processing: no exception escapes the handler). -/
theorem C8_malformed_connection_update (db : Store) (w : EvolutionWebhook)
    (he : w.event = "connection.update")
    (hm : w.data = none ∨ (w.data.bind MessageData.state) = none) :
    controllerEvolutionWebhookState db w = db
    ∧ handleEvolutionWebhookState db w = db := by
  have hserv : handleEvolutionWebhookState db w = db := by
    rw [handleEvolutionWebhookState]
    cases ht : strTruthy w.instanceName
    · simp
    · have hstate : w.data.bind MessageData.state = none := by
        rcases hm with h | h
        · rw [h]; rfl
        · exact h
      simp [he, hstate]
  refine ⟨?_, hserv⟩
  rw [controllerEvolutionWebhookState]
  cases ht : strTruthy w.instanceName
  · simp
  · simp only [Bool.not_true, Bool.false_eq_true, if_false]
    rw [if_pos (by simp [he])]
    rcases hm with h | h
    · rw [h]
    · cases hd : w.data with
      | none => rfl
      | some d =>
        have hds : MessageData.state d = none := by rw [hd] at h; exact h
        simp [hd, hds]

/-- Witness for claim C8: the `connection.update` webhook with no `data`
object leaves a one-instance store untouched. -/
theorem C8_malformed_connection_update_witness :
    controllerEvolutionWebhookState [c2Inst] c8Webhook = [c2Inst]
    ∧ handleEvolutionWebhookState [c2Inst] c8Webhook = [c2Inst] :=
  C8_malformed_connection_update [c2Inst] c8Webhook rfl (Or.inl rfl)

/-- Claim C9: listing returns one refreshed row per owned instance; a row
whose status call fails keeps its stored state and issues no registry write; a
row whose fresh truthy status differs from the stored state is returned with
the fresh state and a matching state-correction write is issued through the
registry. -/
theorem C9_listing_refresh (db : Store) (statusOf : String → StatusOutcome)
    (loc : String) :
    ((getInstancesRefresh db statusOf loc).1.length
        = (getInstancesByUserId db loc).length)
    ∧ ((getInstancesRefresh db statusOf loc).1
        = (getInstancesByUserId db loc).map (refreshedInstance statusOf))
    ∧ (∀ inst ∈ getInstancesByUserId db loc,
        statusOf inst.instanceName = .err →
          refreshedInstance statusOf inst = inst
          ∧ refreshWrite statusOf inst = none)
    ∧ (∀ inst ∈ getInstancesByUserId db loc, ∀ s,
        statusOf inst.instanceName = .ok (some s) → s ≠ "" → s ≠ inst.state →
          (refreshedInstance statusOf inst).state = s
          ∧ (inst.instanceName, s) ∈ (getInstancesRefresh db statusOf loc).2) := by
  refine ⟨by simp [getInstancesRefresh], rfl, ?_, ?_⟩
  · intro inst _ herr
    exact ⟨by simp [refreshedInstance, herr], by simp [refreshWrite, herr]⟩
  · intro inst hmem s hok hne hdiff
    constructor
    · simp [refreshedInstance, hok, hne, hdiff]
    · simp only [getInstancesRefresh]
      apply List.mem_filterMap.mpr
      exact ⟨inst, hmem, by simp [refreshWrite, hok, hne, hdiff]⟩

/-- Witness for claim C9: the two-instance scenario, where the first status
call fails and the second reports `open` against a stored `notAuthorized`. -/
theorem C9_listing_refresh_witness :
    (refreshedInstance c9Status c9InstA = c9InstA
      ∧ refreshWrite c9Status c9InstA = none)
    ∧ ((refreshedInstance c9Status c9InstB).state = "open"
      ∧ ("b2", "open") ∈ (getInstancesRefresh [c9InstA, c9InstB] c9Status "loc1").2) :=
  ⟨(C9_listing_refresh [c9InstA, c9InstB] c9Status "loc1").2.2.1 c9InstA
      (by decide) (by decide),
   (C9_listing_refresh [c9InstA, c9InstB] c9Status "loc1").2.2.2 c9InstB
      (by decide) "open" (by decide) (by decide) (by decide)⟩

/-- Claim C10: for every instance identifier `s`, when the first
`whatsapp-instance-`-prefixed entry of the tag list is exactly the tag the
contact resolver writes (`whatsapp-instance-` ++ `s`), extraction returns `s`;
when no entry carries the marker, extraction returns null. -/
theorem C10_tag_round_trip (tags : List String) (s : String) :
    (tags.find? (fun t => jsStartsWith t "whatsapp-instance-")
        = some ("whatsapp-instance-" ++ s) →
      extractInstanceIdFromTags tags = some s)
    ∧ ((∀ t ∈ tags, jsStartsWith t "whatsapp-instance-" = false) →
      extractInstanceIdFromTags tags = none) := by
  constructor
  · intro h
    cases tags with
    | nil => cases h
    | cons t rest =>
      rw [extractInstanceIdFromTags, if_neg (by simp), h]
      show some (jsReplaceFirst ("whatsapp-instance-" ++ s) "whatsapp-instance-" "") = some s
      rw [jsReplaceFirst_tag]
  · intro h
    cases tags with
    | nil => rfl
    | cons t rest =>
      rw [extractInstanceIdFromTags, if_neg (by simp)]
      rw [List.find?_eq_none.mpr (by intro x hx; simp [h x hx])]

/-- Witness for claim C10 on a concrete tag list in both directions. -/
theorem C10_tag_round_trip_witness :
    extractInstanceIdFromTags ["vip", "whatsapp-instance-abc123"] = some "abc123"
    ∧ extractInstanceIdFromTags ["vip", "customer"] = none :=
  ⟨(C10_tag_round_trip ["vip", "whatsapp-instance-abc123"] "abc123").1 (by decide),
   (C10_tag_round_trip ["vip", "customer"] "abc123").2 (by decide)⟩

end WLink
